import Mathlib

/-!
Verification of the dctrl5g declarative 5G control-plane simulator.

The repository implements the AMF, AUSF, SMF, PCF and UPF network functions
as declarative pipelines (YAML control loops executed by the dcontroller
framework) and the UDM as a native Go controller
(internal/operators/udm/udm.go).  The YAML pipeline files themselves are not
part of the source tree, so the pipeline control loops are modelled from the
specification (and the README control-loop descriptions shipped with the
source); the UDM controller is embedded directly from udm.go.

Conditions carry a type, a status string (one of True, False, Unknown) and a
machine readable reason, following the Kubernetes convention used throughout
the source.  Messages and timestamps are kept only where a claim depends on
them (the UDM embedding).
-/

namespace D5G

/-- A status condition of a resource: type, status and reason.  The status
field holds one of the strings True, False or Unknown, exactly as in the
source objects. -/
structure Condition where
  ctype : String
  status : String
  reason : String
  deriving Repr, DecidableEq

/-! ## AMF registration input validation (control loop register-input) -/

/-- spec.mobileIdentity of a Registration: an identity type and a value. -/
structure MobileIdentity where
  mtype : String
  value : String
  deriving Repr, DecidableEq

/-- Modelled from the spec: the bit-relevant fields of Registration.spec
(registrationType, mobileIdentity, ueSecurityCapability algorithm lists, and
ueStatus.n1Mode, flattened here to n1Mode).  The YAML pipeline amf.yaml that
consumes this resource is not in the source tree. -/
structure RegistrationSpec where
  registrationType : String
  n1Mode : Bool
  mobileIdentity : Option MobileIdentity
  encryptionAlgorithms : List String
  integrityAlgorithms : List String
  deriving Repr, DecidableEq

/-- Whether spec.mobileIdentity is a SUCI identity with a non-empty value. -/
def suciPresent (s : RegistrationSpec) : Bool :=
  match s.mobileIdentity with
  | some mi => mi.mtype == "SUCI" && !(mi.value == "")
  | none => false

/-- Modelled from the spec: the register-input control loop of amf.yaml
(not in the source tree).  The checks run in order - registration type,
5GC/NR native mode, mobile identity, UE security capability - and the first
failing check determines the Validated condition. -/
def registerInputValidated (s : RegistrationSpec) : Condition :=
  if s.registrationType ≠ "initial" then ⟨"Validated", "False", "InvalidType"⟩
  else if s.n1Mode = false then ⟨"Validated", "False", "StandardNotSupported"⟩
  else if suciPresent s = false then ⟨"Validated", "False", "SuciNotFound"⟩
  else if ¬("5G-EA2" ∈ s.encryptionAlgorithms ∧ "5G-IA2" ∈ s.integrityAlgorithms) then
    ⟨"Validated", "False", "EncyptionNotSupported"⟩
  else ⟨"Validated", "True", "Validated"⟩

/-! ## Terminal status aggregation (register-output and session-output) -/

/-- Modelled from the spec: the register-output aggregation of amf.yaml (not
in the source tree).  Ready is True with reason RegistrationSuccessful
exactly when the Validated, Authenticated and SubscriptionInfoRetrieved
statuses are all True, else False with reason RegistrationFailed. -/
def registerReady (v a s : String) : Condition :=
  if v = "True" ∧ a = "True" ∧ s = "True" then ⟨"Ready", "True", "RegistrationSuccessful"⟩
  else ⟨"Ready", "False", "RegistrationFailed"⟩

/-- Modelled from the spec: the session-output aggregation of amf.yaml (not
in the source tree).  Ready is True with reason SessionSuccessful exactly
when the Validated, PolicyApplied and UPFConfigured statuses are all True,
else False with reason SessionFailed. -/
def sessionReady (v p u : String) : Condition :=
  if v = "True" ∧ p = "True" ∧ u = "True" then ⟨"Ready", "True", "SessionSuccessful"⟩
  else ⟨"Ready", "False", "SessionFailed"⟩

/-- C1: for a Registration carried to a terminal status the aggregated Ready
condition is True with reason RegistrationSuccessful if and only if the
Validated, Authenticated and SubscriptionInfoRetrieved conditions are all
True, and otherwise it is False with reason RegistrationFailed; the Session
aggregation obeys the same all-True rule over Validated, PolicyApplied and
UPFConfigured. -/
theorem ready_aggregation (v a s p u : String) :
    (((registerReady v a s).status = "True" ∧
        (registerReady v a s).reason = "RegistrationSuccessful") ↔
      (v = "True" ∧ a = "True" ∧ s = "True"))
  ∧ (¬(v = "True" ∧ a = "True" ∧ s = "True") →
      (registerReady v a s).status = "False" ∧
        (registerReady v a s).reason = "RegistrationFailed")
  ∧ (((sessionReady v p u).status = "True" ∧
        (sessionReady v p u).reason = "SessionSuccessful") ↔
      (v = "True" ∧ p = "True" ∧ u = "True"))
  ∧ (¬(v = "True" ∧ p = "True" ∧ u = "True") →
      (sessionReady v p u).status = "False" ∧
        (sessionReady v p u).reason = "SessionFailed") := by
  refine ⟨?_, ?_, ?_, ?_⟩ <;> simp only [registerReady, sessionReady] <;>
    split <;> simp_all

/-- C5: the register-input checks run in order and the first failing check
fixes the Validated condition and its reason: a non-initial registration
type yields InvalidType, then a missing n1Mode yields StandardNotSupported,
then a missing or empty SUCI yields SuciNotFound, then a missing 5G-EA2 or
5G-IA2 algorithm yields EncyptionNotSupported; when every check passes the
Validated condition is True. -/
theorem register_input_first_failure (s : RegistrationSpec) :
    (s.registrationType ≠ "initial" →
      registerInputValidated s = ⟨"Validated", "False", "InvalidType"⟩)
  ∧ (s.registrationType = "initial" → s.n1Mode = false →
      registerInputValidated s = ⟨"Validated", "False", "StandardNotSupported"⟩)
  ∧ (s.registrationType = "initial" → s.n1Mode = true → suciPresent s = false →
      registerInputValidated s = ⟨"Validated", "False", "SuciNotFound"⟩)
  ∧ (s.registrationType = "initial" → s.n1Mode = true → suciPresent s = true →
      ¬("5G-EA2" ∈ s.encryptionAlgorithms ∧ "5G-IA2" ∈ s.integrityAlgorithms) →
      registerInputValidated s = ⟨"Validated", "False", "EncyptionNotSupported"⟩)
  ∧ (s.registrationType = "initial" → s.n1Mode = true → suciPresent s = true →
      "5G-EA2" ∈ s.encryptionAlgorithms → "5G-IA2" ∈ s.integrityAlgorithms →
      registerInputValidated s = ⟨"Validated", "True", "Validated"⟩) := by
  refine ⟨?_, ?_, ?_, ?_, ?_⟩ <;> unfold registerInputValidated <;> intros <;>
    simp_all

/-! ## Quiescent registration processing, deletion cascade and tables -/

/-- A user-facing Registration resource: identity plus spec. -/
structure Registration where
  name : String
  ns : String
  spec : RegistrationSpec
  deriving Repr, DecidableEq

/-- Modelled from the spec: the collaborating lookups of the registration
pipeline.  resolveSuci is the AUSF SUCI-to-SUPI lookup of ausf.yaml (a pure
lookup in a static table); gutiFromSupi is the deterministic GUTI derivation
performed by register-identity-handler in amf.yaml.  Neither file is in the
source tree. -/
structure AmfEnv where
  resolveSuci : String → Option String
  gutiFromSupi : String → String

/-- The SUCI carried by a Registration spec, when present. -/
def suciOf (r : Registration) : Option String :=
  r.spec.mobileIdentity.map (fun mi => mi.value)

/-- Modelled from the spec: the SUPI the AUSF resolves for a Registration.
A MobileIdentity request is only emitted when Validated is True. -/
def supiOf (env : AmfEnv) (r : Registration) : Option String :=
  if (registerInputValidated r.spec).status = "True" then
    (suciOf r).bind env.resolveSuci
  else none

/-- Modelled from the spec: the GUTI derived from the resolved SUPI. -/
def gutiOf (env : AmfEnv) (r : Registration) : Option String :=
  (supiOf env r).map env.gutiFromSupi

/-- Modelled from the spec: whether the RegState of a Registration reaches
Ready equal to True at quiescence (validated, authenticated with a resolved
SUPI, and subscription info retrieved for the derived GUTI). -/
def regReady (env : AmfEnv) (r : Registration) : Bool :=
  (gutiOf env r).isSome

/-- A member of the ActiveRegistrationTable: name, namespace, GUTI, SUCI. -/
structure RegMember where
  name : String
  ns : String
  guti : String
  suci : String
  deriving Repr, DecidableEq

/-- Modelled from the spec: the table entry the active-registration loop of
amf.yaml gathers for a RegState whose Ready status is True. -/
def memberOf (env : AmfEnv) : Registration → Option RegMember :=
  fun r =>
    if regReady env r then
      some ⟨r.name, r.ns, (gutiOf env r).getD "", (suciOf r).getD ""⟩
    else none

/-- Modelled from the spec: the ActiveRegistrationTable recomputed as the
full snapshot over all RegState objects whose Ready status is True. -/
def activeRegistrationTable (env : AmfEnv) (regs : List Registration) : List RegMember :=
  regs.filterMap (memberOf env)

/-- The (namespace, name) keys of the RegState objects, one per live
Registration (created on Registration create). -/
def regStateKeys (regs : List Registration) : List (String × String) :=
  regs.map (fun r => (r.ns, r.name))

/-- Modelled from the spec: the (namespace, name) keys of the MobileIdentity
requests, emitted by register-identity-req for every validated RegState. -/
def mobileIdentityKeys (regs : List Registration) : List (String × String) :=
  (regs.filter (fun r => (registerInputValidated r.spec).status == "True")).map
    (fun r => (r.ns, r.name))

/-- Modelled from the spec: the names of the UDM Config requests, emitted by
register-config-req and named by the GUTI of the authenticated RegState. -/
def udmConfigNames (env : AmfEnv) (regs : List Registration) : List String :=
  regs.filterMap (gutiOf env)

/-- Modelled from the spec: deleting a Registration; the quiescent state
after the delete event is the derived state of the remaining list. -/
def deleteRegistration (regs : List Registration) (dns dnm : String) : List Registration :=
  regs.filter (fun r => !(r.ns == dns && r.name == dnm))

/-- C2: after deleting a Registration the quiescent derived state holds no
RegState and no MobileIdentity request under the same namespace and name, no
UDM Config named by the GUTI of the deleted Registration (with the GUTI
correlating to no other live Registration), and no ActiveRegistrationTable
entry for it. -/
theorem delete_registration_cascade (env : AmfEnv) (regs : List Registration)
    (dns dnm g : String)
    (hg : ∀ r ∈ regs, gutiOf env r = some g → r.ns = dns ∧ r.name = dnm) :
    (dns, dnm) ∉ regStateKeys (deleteRegistration regs dns dnm)
  ∧ (dns, dnm) ∉ mobileIdentityKeys (deleteRegistration regs dns dnm)
  ∧ g ∉ udmConfigNames env (deleteRegistration regs dns dnm)
  ∧ ∀ m ∈ activeRegistrationTable env (deleteRegistration regs dns dnm),
      ¬(m.ns = dns ∧ m.name = dnm) := by
  refine ⟨?_, ?_, ?_, ?_⟩
  · intro hmem
    simp only [regStateKeys, deleteRegistration, List.mem_map, List.mem_filter] at hmem
    obtain ⟨r, ⟨_, hkeep⟩, hkey⟩ := hmem
    have h1 : r.ns = dns := (Prod.mk.injEq _ _ _ _ ▸ hkey).1
    have h2 : r.name = dnm := (Prod.mk.injEq _ _ _ _ ▸ hkey).2
    simp [h1, h2] at hkeep
  · intro hmem
    simp only [mobileIdentityKeys, deleteRegistration, List.mem_map,
      List.mem_filter] at hmem
    obtain ⟨r, ⟨⟨_, hkeep⟩, _⟩, hkey⟩ := hmem
    have h1 : r.ns = dns := (Prod.mk.injEq _ _ _ _ ▸ hkey).1
    have h2 : r.name = dnm := (Prod.mk.injEq _ _ _ _ ▸ hkey).2
    simp [h1, h2] at hkeep
  · intro hmem
    simp only [udmConfigNames, deleteRegistration, List.mem_filterMap,
      List.mem_filter] at hmem
    obtain ⟨r, ⟨hr, hkeep⟩, hguti⟩ := hmem
    obtain ⟨h1, h2⟩ := hg r hr hguti
    simp [h1, h2] at hkeep
  · intro m hmem hkey
    simp only [activeRegistrationTable, deleteRegistration, List.mem_filterMap,
      List.mem_filter] at hmem
    obtain ⟨r, ⟨_, hkeep⟩, hmk⟩ := hmem
    simp only [memberOf] at hmk
    by_cases hready : regReady env r
    · simp only [hready, if_pos, Option.some.injEq] at hmk
      have h1 : m.ns = r.ns := by rw [← hmk]
      have h2 : m.name = r.name := by rw [← hmk]
      rw [h1] at hkey
      rw [h2] at hkey
      simp [hkey.1, hkey.2] at hkeep
    · simp [hready] at hmk

/-- A concrete environment for evaluating the registration pipeline model:
one static SUCI-to-SUPI mapping and a prefix-based GUTI derivation. -/
def envW : AmfEnv where
  resolveSuci := fun s => if s == "suci-1" then some "supi-1" else none
  gutiFromSupi := fun supi => "guti-" ++ supi

/-- A concrete valid Registration used by the witnesses. -/
def regW : Registration where
  name := "user-1"
  ns := "user-1"
  spec :=
    { registrationType := "initial"
      n1Mode := true
      mobileIdentity := some ⟨"SUCI", "suci-1"⟩
      encryptionAlgorithms := ["5G-EA0", "5G-EA1", "5G-EA2", "5G-EA3"]
      integrityAlgorithms := ["5G-IA0", "5G-IA1", "5G-IA2", "5G-IA3"] }

/-- C2 witness: the cascade theorem applied to a singleton system holding
one ready Registration, deleting that Registration. -/
theorem delete_registration_cascade_witness :
    (∀ r ∈ [regW], gutiOf envW r = some "guti-supi-1" → r.ns = "user-1" ∧ r.name = "user-1")
  ∧ ((("user-1", "user-1") ∉ regStateKeys (deleteRegistration [regW] "user-1" "user-1"))
    ∧ (("user-1", "user-1") ∉ mobileIdentityKeys (deleteRegistration [regW] "user-1" "user-1"))
    ∧ ("guti-supi-1" ∉ udmConfigNames envW (deleteRegistration [regW] "user-1" "user-1"))
    ∧ ∀ m ∈ activeRegistrationTable envW (deleteRegistration [regW] "user-1" "user-1"),
        ¬(m.ns = "user-1" ∧ m.name = "user-1")) := by
  have hg : ∀ r ∈ [regW], gutiOf envW r = some "guti-supi-1" →
      r.ns = "user-1" ∧ r.name = "user-1" := by
    intro r hr _
    rw [List.mem_singleton] at hr
    subst hr
    exact ⟨rfl, rfl⟩
  exact ⟨hg, delete_registration_cascade envW [regW] "user-1" "user-1" "guti-supi-1" hg⟩

/-! ## Session pipeline: AMF session-input and the SMF control loops -/

/-- A network configuration request of Session.spec (IPConfiguration or
DNSServer, with an address family). -/
structure NetworkConfigRequest where
  rtype : String
  addressFamily : String
  deriving Repr, DecidableEq

/-- Uplink and downlink bitrates of a QoS flow, in kbit/s. -/
structure BitRates where
  uplinkBwKbps : Int
  downlinkBwKbps : Int
  deriving Repr, DecidableEq

/-- A QoS flow: name, 5QI class and optional bitrates. -/
structure QosFlow where
  name : String
  fiveQI : String
  bitRates : Option BitRates
  deriving Repr, DecidableEq

/-- A QoS rule binding packets to a flow. -/
structure QosRule where
  name : String
  precedence : Int
  qosFlow : String
  isDefault : Bool
  deriving Repr, DecidableEq

/-- Modelled from the spec: the bit-relevant fields of the user-facing
Session.spec; optional fields record presence, which session-input checks.
The pipeline file amf.yaml is not in the source tree. -/
structure SessionSpec where
  guti : Option String
  nssai : String
  sessionId : Int
  pduSessionType : String
  idle : Option Bool
  networkConfigRequests : Option (List NetworkConfigRequest)
  qosFlows : Option (List QosFlow)
  qosRules : Option (List QosRule)
  deriving Repr, DecidableEq

/-- Look up a GUTI in the ActiveRegistrationTable. -/
def lookupGuti (table : List RegMember) (g : String) : Option RegMember :=
  table.find? (fun m => m.guti == g)

/-- Modelled from the spec: the session-input control loop of amf.yaml (not
in the source tree).  It checks in order the presence of the network
configuration requests, QoS flows and QoS rules, then the slice type, then
the presence of the GUTI, then the membership of the GUTI in the
ActiveRegistrationTable, then the SUPI resolution, and sets the Validated
condition accordingly. -/
def sessionInputValidated (table : List RegMember) (resolveSupi : String → Option String)
    (s : SessionSpec) : Condition :=
  if ¬(s.networkConfigRequests.isSome ∧ s.qosFlows.isSome ∧ s.qosRules.isSome) then
    ⟨"Validated", "False", "InvalidSession"⟩
  else if s.nssai ≠ "eMBB" then ⟨"Validated", "False", "NSSAINotPermitted"⟩
  else
    match s.guti with
    | none => ⟨"Validated", "False", "GutiNotSpeficied"⟩
    | some g =>
      match lookupGuti table g with
      | none => ⟨"Validated", "False", "Unregistered"⟩
      | some m =>
        match resolveSupi m.suci with
        | none => ⟨"Validated", "False", "SupiNotFound"⟩
        | some _ => ⟨"Validated", "True", "Validated"⟩

/-- The generated IP configuration of a session. -/
structure IPConfiguration where
  ipAddress : String
  subnetMask : String
  defaultGateway : String
  mtu : Int
  deriving Repr, DecidableEq

/-- The generated DNS configuration of a session. -/
structure DNSConfiguration where
  primaryDNS : String
  secondaryDNS : String
  deriving Repr, DecidableEq

/-- The SMF internal SessionContext spec: the validated session fields, with
the tri-state idle toggle. -/
structure SessionContextSpec where
  guti : String
  nssai : String
  sessionId : Int
  pduSessionType : String
  idle : Option Bool
  networkConfigRequests : List NetworkConfigRequest
  qosFlows : List QosFlow
  qosRules : List QosRule
  deriving Repr, DecidableEq

/-- Modelled from the spec: the session policies the PCF returns (pcf.yaml
is not in the source tree): the admitted 5QI classes and the bitrate caps. -/
structure Policy where
  allowedFiveQI : List String
  capUplinkKbps : Int
  capDownlinkKbps : Int

/-- Modelled from the spec: QoS flow processing of session-context-handler
in smf.yaml (not in the source tree): keep only flows whose 5QI class the
policy admits and cap the bitrates at the policy values. -/
def processFlows (pol : Policy) (flows : List QosFlow) : List QosFlow :=
  (flows.filter (fun f => pol.allowedFiveQI.contains f.fiveQI)).map
    (fun f =>
      { f with
        bitRates := f.bitRates.map (fun b =>
          ⟨min b.uplinkBwKbps pol.capUplinkKbps, min b.downlinkBwKbps pol.capDownlinkKbps⟩) })

/-- Modelled from the spec: the PolicyApplied condition computed by
session-context-handler: False with reason AddressFamilyNotSupported unless
the PDU session type is IPv4. -/
def policyAppliedCond (s : SessionContextSpec) : Condition :=
  if s.pduSessionType = "IPv4" then ⟨"PolicyApplied", "True", "PolicyApplied"⟩
  else ⟨"PolicyApplied", "False", "AddressFamilyNotSupported"⟩

/-- Modelled from the spec: the UPFConfigured condition computed by
session-context-handler: False with reason Idle exactly when spec.idle is
true, else True with reason UPFConfigured. -/
def upfConfiguredCond (s : SessionContextSpec) : Condition :=
  if s.idle = some true then ⟨"UPFConfigured", "False", "Idle"⟩
  else ⟨"UPFConfigured", "True", "UPFConfigured"⟩

/-- Modelled from the spec: the IP configuration generated when an
IPConfiguration request is present; the address allocator is a deterministic
function of the session key (re-evaluation must be idempotent, so the
allocation cannot be re-randomized on no-op updates). -/
def ipConfigurationFor (alloc : String → String) (key : String)
    (s : SessionContextSpec) : Option IPConfiguration :=
  if s.networkConfigRequests.any (fun q => q.rtype == "IPConfiguration") then
    some ⟨alloc key, "255.255.0.0", "10.45.0.1", 1500⟩
  else none

/-- Modelled from the spec: the DNS configuration generated when a DNSServer
request is present. -/
def dnsConfigurationFor (s : SessionContextSpec) : Option DNSConfiguration :=
  if s.networkConfigRequests.any (fun q => q.rtype == "DNSServer") then
    some ⟨"8.8.8.8", "8.8.4.4"⟩
  else none

/-- The status session-context-handler writes back into the SessionContext:
the three conditions plus the generated network configuration and the
policy-processed QoS spec. -/
structure SessionContextStatus where
  validated : Condition
  policyApplied : Condition
  upfConfigured : Condition
  ipConfiguration : Option IPConfiguration
  dnsConfiguration : Option DNSConfiguration
  qosFlows : List QosFlow
  qosRules : List QosRule
  deriving Repr, DecidableEq

/-- Modelled from the spec: the session-context-handler control loop of
smf.yaml (not in the source tree).  The Validated condition set by
session-input is carried through unchanged. -/
def sessionContextHandler (alloc : String → String) (pol : Policy) (key : String)
    (v : Condition) (s : SessionContextSpec) : SessionContextStatus :=
  { validated := v
    policyApplied := policyAppliedCond s
    upfConfigured := upfConfiguredCond s
    ipConfiguration := ipConfigurationFor alloc key s
    dnsConfiguration := dnsConfigurationFor s
    qosFlows := processFlows pol s.qosFlows
    qosRules := s.qosRules }

/-- The Ready condition of a SessionContext status, aggregated with the
session all-True rule. -/
def sessionCtxReadyCond (st : SessionContextStatus) : Condition :=
  sessionReady st.validated.status st.policyApplied.status st.upfConfigured.status

/-- The per-session UPF Config resource: traffic spec keyed by the session
name and namespace. -/
structure UpfConfig where
  name : String
  ns : String
  ipConfiguration : Option IPConfiguration
  dnsConfiguration : Option DNSConfiguration
  qosFlows : List QosFlow
  qosRules : List QosRule
  deriving Repr, DecidableEq

/-- Modelled from the spec: the upf-notifier control loop of smf.yaml (not
in the source tree): gated on the SessionContext Ready status being True, it
mirrors the traffic spec into a UPF Config with the same name and namespace;
when the gate is false the UPF Config is absent (deleted, not left stale). -/
def upfNotifier (nm nsp : String) (st : SessionContextStatus) : Option UpfConfig :=
  if (sessionCtxReadyCond st).status = "True" then
    some ⟨nm, nsp, st.ipConfiguration, st.dnsConfiguration, st.qosFlows, st.qosRules⟩
  else none

/-- C3: for a SessionContext that is validated and policy-applied, the
UPFConfigured condition computed by the SMF is True with reason
UPFConfigured exactly when spec.idle is not true and False with reason Idle
when spec.idle is true, and the UPF Config object exists if and only if the
session is active. -/
theorem upf_configured_toggle (alloc : String → String) (pol : Policy)
    (key nm nsp : String) (v : Condition) (s : SessionContextSpec)
    (hv : v.status = "True") (hp : s.pduSessionType = "IPv4") :
    ((sessionContextHandler alloc pol key v s).upfConfigured =
      if s.idle = some true then ⟨"UPFConfigured", "False", "Idle"⟩
      else ⟨"UPFConfigured", "True", "UPFConfigured"⟩)
  ∧ ((upfNotifier nm nsp (sessionContextHandler alloc pol key v s)).isSome ↔
      s.idle ≠ some true) := by
  constructor
  · rfl
  · simp only [upfNotifier, sessionCtxReadyCond, sessionReady, sessionContextHandler,
      policyAppliedCond, upfConfiguredCond, hp, if_pos, hv]
    by_cases hidle : s.idle = some true <;> simp [hidle]

/-- A concrete SMF environment and session used by the witnesses. -/
def polW : Policy where
  allowedFiveQI := ["ConversationalVoice", "BestEffort"]
  capUplinkKbps := 128
  capDownlinkKbps := 128

/-- A concrete active (not idle) SessionContext spec used by the witnesses. -/
def ctxSpecW : SessionContextSpec where
  guti := "guti-supi-1"
  nssai := "eMBB"
  sessionId := 5
  pduSessionType := "IPv4"
  idle := none
  networkConfigRequests := [⟨"IPConfiguration", "IPv4"⟩, ⟨"DNSServer", "IPv4"⟩]
  qosFlows := [⟨"voice-flow", "ConversationalVoice", some ⟨256, 256⟩⟩,
               ⟨"best-effort-flow", "BestEffort", none⟩]
  qosRules := [⟨"voice-rule", 10, "voice-flow", false⟩,
               ⟨"default-rule", 255, "best-effort-flow", true⟩]

/-- The Validated condition of a successfully validated session. -/
def validatedW : Condition := ⟨"Validated", "True", "Validated"⟩

/-- C3 witness: the toggle theorem applied to a concrete active session,
whose UPF Config therefore exists. -/
theorem upf_configured_toggle_witness :
    validatedW.status = "True" ∧ ctxSpecW.pduSessionType = "IPv4" ∧
    (((sessionContextHandler (fun _ => "10.45.0.100") polW "user-1/user-1"
          validatedW ctxSpecW).upfConfigured =
        if ctxSpecW.idle = some true then ⟨"UPFConfigured", "False", "Idle"⟩
        else ⟨"UPFConfigured", "True", "UPFConfigured"⟩)
      ∧ ((upfNotifier "user-1" "user-1" (sessionContextHandler (fun _ => "10.45.0.100")
            polW "user-1/user-1" validatedW ctxSpecW)).isSome ↔
          ctxSpecW.idle ≠ some true)) :=
  ⟨rfl, rfl, upf_configured_toggle (fun _ => "10.45.0.100") polW "user-1/user-1"
    "user-1" "user-1" validatedW ctxSpecW rfl rfl⟩

/-! ## ContextRelease idle toggle and its symmetry -/

/-- Modelled from the spec: the merge patch applied to SessionContext.spec
by the ContextRelease loops; creating a ContextRelease patches idle to true
(session-context-release-output), deleting it patches idle to null. -/
def patchIdle (s : SessionContextSpec) (b : Option Bool) : SessionContextSpec :=
  { s with idle := b }

/-- C4: creating and then deleting a ContextRelease for an active session is
a round trip: the SMF-assigned IP configuration, DNS configuration and QoS
assignment after the delete are exactly those before the create, and the UPF
Config reappears with identical content; moreover the IP and QoS assignment
of the SMF transform does not depend on the idle value at all, so re-running
with the same idle value and policy yields the same assignment. -/
theorem idle_round_trip (alloc : String → String) (pol : Policy)
    (key nm nsp : String) (v : Condition) (s : SessionContextSpec)
    (h : s.idle ≠ some true) :
    ((sessionContextHandler alloc pol key v (patchIdle (patchIdle s (some true)) none)).ipConfiguration =
        (sessionContextHandler alloc pol key v s).ipConfiguration)
  ∧ ((sessionContextHandler alloc pol key v (patchIdle (patchIdle s (some true)) none)).dnsConfiguration =
        (sessionContextHandler alloc pol key v s).dnsConfiguration)
  ∧ ((sessionContextHandler alloc pol key v (patchIdle (patchIdle s (some true)) none)).qosFlows =
        (sessionContextHandler alloc pol key v s).qosFlows)
  ∧ ((sessionContextHandler alloc pol key v (patchIdle (patchIdle s (some true)) none)).qosRules =
        (sessionContextHandler alloc pol key v s).qosRules)
  ∧ (upfNotifier nm nsp (sessionContextHandler alloc pol key v
        (patchIdle (patchIdle s (some true)) none)) =
      upfNotifier nm nsp (sessionContextHandler alloc pol key v s))
  ∧ (∀ b : Option Bool,
      ((sessionContextHandler alloc pol key v (patchIdle s b)).ipConfiguration =
          (sessionContextHandler alloc pol key v s).ipConfiguration)
      ∧ ((sessionContextHandler alloc pol key v (patchIdle s b)).qosFlows =
          (sessionContextHandler alloc pol key v s).qosFlows)) := by
  refine ⟨rfl, rfl, rfl, rfl, ?_, fun b => ⟨rfl, rfl⟩⟩
  simp [upfNotifier, sessionCtxReadyCond, sessionContextHandler, sessionReady,
    upfConfiguredCond, policyAppliedCond, ipConfigurationFor, dnsConfigurationFor,
    patchIdle, h]

/-- C4 witness: the round trip theorem applied to a concrete active session
with the deterministic allocator of the witness environment. -/
theorem idle_round_trip_witness :
    ctxSpecW.idle ≠ some true
  ∧ (upfNotifier "user-1" "user-1" (sessionContextHandler (fun _ => "10.45.0.100")
        polW "user-1/user-1" validatedW (patchIdle (patchIdle ctxSpecW (some true)) none)) =
      upfNotifier "user-1" "user-1" (sessionContextHandler (fun _ => "10.45.0.100")
        polW "user-1/user-1" validatedW ctxSpecW)) := by
  have h : ctxSpecW.idle ≠ some true := by
    simp [ctxSpecW]
  exact ⟨h, (idle_round_trip (fun _ => "10.45.0.100") polW "user-1/user-1"
    "user-1" "user-1" validatedW ctxSpecW h).2.2.2.2.1⟩

/-! ## Quiescent session processing (session-input through upf-notifier) -/

/-- The quiescent outcome of a Session request: the conditions projected
onto the user-facing Session and the resulting UPF Config, if any. -/
structure SessionOutcome where
  validated : Condition
  policyApplied : Condition
  upfConfigured : Condition
  ready : Condition
  upfConfig : Option UpfConfig
  deriving Repr, DecidableEq

/-- A condition pending a future trigger: status Unknown. -/
def unknownCond (t : String) : Condition := ⟨t, "Unknown", ""⟩

/-- Modelled from the spec: the quiescent processing of a Session request.
When session-input validates the spec, the SessionContext is created with
the validated fields and handed to the SMF control loops; when validation
fails the downstream conditions stay Unknown and no UPF Config is created. -/
def processSession (alloc : String → String) (pol : Policy) (table : List RegMember)
    (resolveSupi : String → Option String) (nm nsp : String) (s : SessionSpec) :
    SessionOutcome :=
  let v := sessionInputValidated table resolveSupi s
  if v.status = "True" then
    let cs : SessionContextSpec :=
      { guti := s.guti.getD ""
        nssai := s.nssai
        sessionId := s.sessionId
        pduSessionType := s.pduSessionType
        idle := s.idle
        networkConfigRequests := s.networkConfigRequests.getD []
        qosFlows := s.qosFlows.getD []
        qosRules := s.qosRules.getD [] }
    let st := sessionContextHandler alloc pol (nsp ++ "/" ++ nm) v cs
    { validated := v
      policyApplied := st.policyApplied
      upfConfigured := st.upfConfigured
      ready := sessionCtxReadyCond st
      upfConfig := upfNotifier nm nsp st }
  else
    { validated := v
      policyApplied := unknownCond "PolicyApplied"
      upfConfigured := unknownCond "UPFConfigured"
      ready := sessionReady v.status "Unknown" "Unknown"
      upfConfig := none }

/-- The Validated condition of the quiescent outcome is the one computed by
session-input. -/
theorem processSession_validated (alloc : String → String) (pol : Policy)
    (table : List RegMember) (resolveSupi : String → Option String)
    (nm nsp : String) (s : SessionSpec) :
    (processSession alloc pol table resolveSupi nm nsp s).validated =
      sessionInputValidated table resolveSupi s := by
  simp only [processSession]
  split <;> rfl

/-- C6: session-input validates the presence of the network configuration
requests, QoS flows, QoS rules and the GUTI; a slice other than eMBB yields
reason NSSAINotPermitted, an omitted GUTI yields GutiNotSpeficied, a GUTI
absent from the ActiveRegistrationTable yields Unregistered; whenever
validation fails the Session Ready condition is False and no UPF Config is
created; on success the SessionContext is created with Validated True. -/
theorem session_input_validation (alloc : String → String) (pol : Policy)
    (table : List RegMember) (resolveSupi : String → Option String)
    (nm nsp : String) (s : SessionSpec) :
    (¬(s.networkConfigRequests.isSome ∧ s.qosFlows.isSome ∧ s.qosRules.isSome) →
      (processSession alloc pol table resolveSupi nm nsp s).validated =
        ⟨"Validated", "False", "InvalidSession"⟩)
  ∧ ((s.networkConfigRequests.isSome ∧ s.qosFlows.isSome ∧ s.qosRules.isSome) →
      s.nssai ≠ "eMBB" →
      (processSession alloc pol table resolveSupi nm nsp s).validated =
        ⟨"Validated", "False", "NSSAINotPermitted"⟩)
  ∧ ((s.networkConfigRequests.isSome ∧ s.qosFlows.isSome ∧ s.qosRules.isSome) →
      s.nssai = "eMBB" → s.guti = none →
      (processSession alloc pol table resolveSupi nm nsp s).validated =
        ⟨"Validated", "False", "GutiNotSpeficied"⟩)
  ∧ ((s.networkConfigRequests.isSome ∧ s.qosFlows.isSome ∧ s.qosRules.isSome) →
      s.nssai = "eMBB" → ∀ g, s.guti = some g → lookupGuti table g = none →
      (processSession alloc pol table resolveSupi nm nsp s).validated =
        ⟨"Validated", "False", "Unregistered"⟩)
  ∧ ((processSession alloc pol table resolveSupi nm nsp s).validated.status = "False" →
      (processSession alloc pol table resolveSupi nm nsp s).ready.status = "False"
      ∧ (processSession alloc pol table resolveSupi nm nsp s).upfConfig = none)
  ∧ ((s.networkConfigRequests.isSome ∧ s.qosFlows.isSome ∧ s.qosRules.isSome) →
      s.nssai = "eMBB" → ∀ g, s.guti = some g → ∀ m, lookupGuti table g = some m →
      (resolveSupi m.suci).isSome →
      (processSession alloc pol table resolveSupi nm nsp s).validated =
        ⟨"Validated", "True", "Validated"⟩) := by
  simp only [processSession_validated]
  refine ⟨?_, ?_, ?_, ?_, ?_, ?_⟩
  · intro hpres
    simp [sessionInputValidated, hpres]
  · intro hpres hnssai
    simp [sessionInputValidated, hpres, hnssai]
  · intro hpres hnssai hguti
    simp [sessionInputValidated, hpres, hnssai, hguti]
  · intro hpres hnssai g hg htable
    simp [sessionInputValidated, hpres, hnssai, hg, htable]
  · intro hfalse
    simp only [processSession]
    split
    · rename_i htrue
      rw [hfalse] at htrue
      simp at htrue
    · rename_i hnottrue
      constructor
      · simp only [sessionReady]
        split
        · rename_i hall
          exact absurd hall.1 hnottrue
        · rfl
      · rfl
  · intro hpres hnssai g hg m hm hsupi
    obtain ⟨supi, hsupi⟩ := Option.isSome_iff_exists.mp hsupi
    simp [sessionInputValidated, hpres, hnssai, hg, hm, hsupi]

/-! ## Derived aggregate tables and their member counts -/

/-- A quiescent SessionContext record as seen by the table loops: identity,
idle flag and the three condition statuses. -/
structure SessionCtxObj where
  name : String
  ns : String
  guti : String
  sessionId : Int
  idle : Option Bool
  validated : String
  policyApplied : String
  upfConfigured : String
  deriving Repr, DecidableEq

/-- A member of the ActiveSessionTable: name, namespace, GUTI, session id
and idle flag. -/
structure SessMember where
  name : String
  ns : String
  guti : String
  sessionId : Int
  idle : Bool
  deriving Repr, DecidableEq

/-- Whether the active-session gate admits a SessionContext: Validated and
PolicyApplied both True, independent of the UPF state. -/
def sessionTableGate (c : SessionCtxObj) : Bool :=
  c.validated == "True" && c.policyApplied == "True"

/-- Whether all three SessionContext conditions are True, which is when the
aggregated Ready condition of the context is True. -/
def ctxReady (c : SessionCtxObj) : Bool :=
  c.validated == "True" && c.policyApplied == "True" && c.upfConfigured == "True"

/-- Modelled from the spec: the ActiveSessionTable recomputed by the
active-session loop of smf.yaml (not in the source tree) as the full
snapshot over all SessionContext objects admitted by its gate. -/
def activeSessionTable (ctxs : List SessionCtxObj) : List SessMember :=
  ctxs.filterMap (fun c =>
    if sessionTableGate c then
      some ⟨c.name, c.ns, c.guti, c.sessionId, c.idle.getD false⟩
    else none)

/-- A member of the ActiveConfigTable: the identity of a live UPF Config
(the traffic spec travels with it and plays no role in the counts). -/
structure ConfigMember where
  name : String
  ns : String
  deriving Repr, DecidableEq

/-- Modelled from the spec: the ActiveConfigTable recomputed by the
active-config loop of upf.yaml (not in the source tree) over all live UPF
Config objects, with no gate. -/
def activeConfigTable (cfgs : List UpfConfig) : List ConfigMember :=
  cfgs.map (fun c => ⟨c.name, c.ns⟩)

/-- Modelled from the spec: the UPF Config derived from a quiescent
SessionContext record (present exactly when all three conditions are True,
per the upf-notifier gate). -/
def upfConfigOfCtx (c : SessionCtxObj) : Option ConfigMember :=
  if ctxReady c then some ⟨c.name, c.ns⟩ else none

/-- The length of a guarded filterMap is the length of the filter by the
guard. -/
theorem length_filterMap_guard {α β : Type} (p : α → Bool) (f : α → β) (l : List α) :
    (l.filterMap (fun a => if p a then some (f a) else none)).length =
      (l.filter p).length := by
  induction l with
  | nil => rfl
  | cons a t ih =>
    by_cases hp : p a
    · simp [List.filterMap_cons, List.filter_cons, hp, ih]
    · simp [List.filterMap_cons, List.filter_cons, hp, ih]

/-- C9 counterexample: an idle SessionContext (Validated and PolicyApplied
True, UPFConfigured False with reason Idle, as the SMF computes for
spec.idle true) is a member of the ActiveSessionTable although its
aggregated Ready condition is not True, so the table count exceeds the count
of Ready contexts. -/
theorem active_session_table_ready_counterexample :
    (upfConfiguredCond (patchIdle ctxSpecW (some true))).status = "False"
  ∧ (upfConfiguredCond (patchIdle ctxSpecW (some true))).reason = "Idle"
  ∧ (activeSessionTable
      [⟨"user-1", "user-1", "guti-supi-1", 5, some true, "True", "True", "False"⟩]).length = 1
  ∧ (List.filter ctxReady
      [⟨"user-1", "user-1", "guti-supi-1", 5, some true, "True", "True", "False"⟩]).length = 0 := by
  refine ⟨rfl, rfl, rfl, rfl⟩

/-- C9 (amended): the ActiveRegistrationTable member count equals the count
of RegState objects whose Ready status is True; the ActiveSessionTable
member count equals the count of SessionContext objects admitted by its own
gate, Validated and PolicyApplied True, independent of UPFConfigured; the
ActiveConfigTable member count equals the count of live UPF Configs, which
at quiescence is the count of SessionContext objects with all three
conditions True. -/
theorem table_count_consistency (env : AmfEnv) (regs : List Registration)
    (ctxs : List SessionCtxObj) (cfgs : List UpfConfig) :
    ((activeRegistrationTable env regs).length = (regs.filter (regReady env)).length)
  ∧ ((activeSessionTable ctxs).length = (ctxs.filter sessionTableGate).length)
  ∧ ((activeConfigTable cfgs).length = cfgs.length)
  ∧ ((ctxs.filterMap upfConfigOfCtx).length = (ctxs.filter ctxReady).length) := by
  refine ⟨?_, ?_, ?_, ?_⟩
  · exact length_filterMap_guard (regReady env)
      (fun r => (⟨r.name, r.ns, (gutiOf env r).getD "", (suciOf r).getD ""⟩ : RegMember)) regs
  · exact length_filterMap_guard sessionTableGate
      (fun c => (⟨c.name, c.ns, c.guti, c.sessionId, c.idle.getD false⟩ : SessMember)) ctxs
  · exact (List.length_map cfgs _)
  · exact length_filterMap_guard ctxReady (fun c => (⟨c.name, c.ns⟩ : ConfigMember)) ctxs

/-! ## The native UDM controller (internal/operators/udm/udm.go)

The controller watches udm Config resources; on add or update it generates
a kubeconfig credential for the GUTI the Config is named after and writes
the result into the status via setStatus.  The token generator and the
kubeconfig serializer live in the external dcontroller auth package, which
the specification treats as a contract only; the generator is therefore a
function-valued field of the controller and the serializer a constructor
packing its arguments. -/

/-- An RBAC policy rule, as passed to the token generator (udm.go always
passes the empty list). -/
structure PolicyRule where
  verbs : List String
  apiGroups : List String
  resources : List String
  deriving Repr, DecidableEq

/-- The options udm.go passes to auth.GenerateKubeconfig. -/
structure KubeconfigOptions where
  clusterName : String
  contextName : String
  defaultNamespace : String
  insecure : Bool
  httpMode : Bool
  deriving Repr, DecidableEq

/-- The serialized connection profile: the external serializer is modelled
as packing the server address, user, token and options. -/
structure KubeConfig where
  server : String
  user : String
  token : String
  clusterName : String
  contextName : String
  defaultNamespace : String
  insecure : Bool
  httpMode : Bool
  deriving Repr, DecidableEq

/-- auth.GenerateKubeconfig, modelled as a pure constructor of the
connection profile from its arguments. -/
def generateKubeconfig (serverAddress user token : String) (opts : KubeconfigOptions) :
    KubeConfig :=
  ⟨serverAddress, user, token, opts.clusterName, opts.contextName,
    opts.defaultNamespace, opts.insecure, opts.httpMode⟩

/-- A condition as written by udm.go setStatus: timestamp, type, status,
reason and message. -/
structure UdmCondition where
  lastTransitionTime : String
  ctype : String
  status : String
  reason : String
  message : String
  deriving Repr, DecidableEq

/-- The status map setStatus writes: the conditions list, and the config
key only when a credential is present. -/
structure UdmStatus where
  conditions : List UdmCondition
  config : Option KubeConfig
  deriving Repr, DecidableEq

/-- A udm Config view object: identity, labels and status. -/
structure UdmObject where
  name : String
  ns : String
  labels : List (String × String)
  status : Option UdmStatus
  deriving Repr, DecidableEq

/-- The udm controller state: the API server address, the options and the
external token generator (subject, namespaces, rules, ttl seconds). -/
structure UdmController where
  serverAddress : String
  insecure : Bool
  httpMode : Bool
  generateToken : String → List String → List PolicyRule → Nat → Option String

/-- Update a label map, replacing any previous binding of the key. -/
def setLabel (ls : List (String × String)) (k v : String) : List (String × String) :=
  (k, v) :: ls.filter (fun p => !(p.1 == k))

/-- Look up a label by key. -/
def getLabel (ls : List (String × String)) (k : String) : Option String :=
  (ls.find? (fun p => p.1 == k)).map (fun p => p.2)

/-- udmController.getKubeConfig: the GUTI is the object name; the token is
generated for subject guti with namespaces [guti], an empty rule list and a
168 hour lifetime, and the kubeconfig references the current API endpoint.
The YAML write and unmarshal round trip of the source is the identity at
this level. -/
def getKubeConfig (r : UdmController) (obj : UdmObject) : Option KubeConfig :=
  let guti := obj.name
  match r.generateToken guti [guti] [] (168 * 3600) with
  | none => none
  | some token =>
    some (generateKubeconfig r.serverAddress guti token
      ⟨"dctrl5g", "dctrl5g", "default", r.insecure, r.httpMode⟩)

/-- udmController.setStatus: unconditionally stamps labels.state with
ConfigAvailable, replaces status.conditions with the single Ready condition
carrying the given result, reason and message, and stores the config under
status.config only when one is given. -/
def setStatus (now : String) (obj : UdmObject) (result reason message : String)
    (config : Option KubeConfig) : UdmObject :=
  { obj with
    labels := setLabel obj.labels "state" "ConfigAvailable"
    status := some ⟨[⟨now, "Ready", result, reason, message⟩], config⟩ }

/-- udmController.Reconcile on an Added, Updated or Upserted event: generate
the kubeconfig; on failure set the Ready False ConfigUnavailable status with
no config and report the error (the Bool flag), on success set the Ready
True status carrying the config. -/
def reconcileUpsert (r : UdmController) (now : String) (obj : UdmObject) :
    UdmObject × Bool :=
  match getKubeConfig r obj with
  | none =>
    (setStatus now obj "False" "ConfigUnavailable" "Failed to generate config" none, true)
  | some config =>
    (setStatus now obj "True" "Ready" "Succesfully generated config" (some config), false)

/-- C7: when credential generation fails, the reconcile leaves the object
with exactly one condition, Ready False with reason ConfigUnavailable, a
status containing no config at all, the usual state label, and everything
else about the object unchanged, and it reports the error. -/
theorem reconcile_failure_no_partial_config (r : UdmController) (now : String)
    (obj : UdmObject) (h : getKubeConfig r obj = none) :
    reconcileUpsert r now obj =
      ({ name := obj.name
         ns := obj.ns
         labels := setLabel obj.labels "state" "ConfigAvailable"
         status := some ⟨[⟨now, "Ready", "False", "ConfigUnavailable",
           "Failed to generate config"⟩], none⟩ }, true) := by
  simp only [reconcileUpsert, h, setStatus]

/-- A controller whose signing key is unavailable: every token request
fails. -/
def udmFailW : UdmController where
  serverAddress := "https://127.0.0.1:8443"
  insecure := true
  httpMode := true
  generateToken := fun _ _ _ _ => none

/-- A working controller: the token is a pure function of the subject. -/
def udmOkW : UdmController where
  serverAddress := "https://127.0.0.1:8443"
  insecure := true
  httpMode := true
  generateToken := fun g _ _ _ => some ("tok-" ++ g)

/-- A concrete Config request object named by a GUTI. -/
def cfgObjW : UdmObject := ⟨"test-guti", "", [], none⟩

/-- C7 witness: the failure theorem applied to the failing controller and a
concrete Config request. -/
theorem reconcile_failure_no_partial_config_witness :
    getKubeConfig udmFailW cfgObjW = none
  ∧ reconcileUpsert udmFailW "t0" cfgObjW =
      ({ name := cfgObjW.name
         ns := cfgObjW.ns
         labels := setLabel cfgObjW.labels "state" "ConfigAvailable"
         status := some ⟨[⟨"t0", "Ready", "False", "ConfigUnavailable",
           "Failed to generate config"⟩], none⟩ }, true) :=
  ⟨rfl, reconcile_failure_no_partial_config udmFailW "t0" cfgObjW rfl⟩

/-- The reconcile does not change the object name. -/
theorem reconcileUpsert_name (r : UdmController) (now : String) (obj : UdmObject) :
    (reconcileUpsert r now obj).1.name = obj.name := by
  simp only [reconcileUpsert]
  cases getKubeConfig r obj <;> rfl

/-- getKubeConfig reads the object only through its name. -/
theorem getKubeConfig_name_only (r : UdmController) (o1 o2 : UdmObject)
    (h : o1.name = o2.name) : getKubeConfig r o1 = getKubeConfig r o2 := by
  simp only [getKubeConfig, h]

/-- setStatus does not change the name, so it does not change the generated
credential. -/
theorem getKubeConfig_setStatus (r : UdmController) (now : String) (obj : UdmObject)
    (a b c : String) (d : Option KubeConfig) :
    getKubeConfig r (setStatus now obj a b c d) = getKubeConfig r obj := rfl

/-- C8: the generated Config content is a pure function of the GUTI and the
fixed rule set: for a fixed controller, two objects carrying the same GUTI
receive the same credential content, and re-running the reconcile on its own
output (same GUTI) reproduces the same status, so regeneration is safe. -/
theorem getKubeConfig_pure_in_guti (r : UdmController) (now : String)
    (o1 o2 : UdmObject) (h : o1.name = o2.name) :
    getKubeConfig r o1 = getKubeConfig r o2
  ∧ (reconcileUpsert r now (reconcileUpsert r now o1).1).1.status =
      (reconcileUpsert r now o1).1.status := by
  refine ⟨getKubeConfig_name_only r o1 o2 h, ?_⟩
  rcases hE : getKubeConfig r o1 with _ | cfg
  · have h1 : reconcileUpsert r now o1 =
        (setStatus now o1 "False" "ConfigUnavailable" "Failed to generate config" none,
          true) := by
      simp only [reconcileUpsert, hE]
    rw [h1]
    have h2 : getKubeConfig r
        (setStatus now o1 "False" "ConfigUnavailable" "Failed to generate config" none) =
        none := by
      rw [getKubeConfig_setStatus, hE]
    simp only [reconcileUpsert, h2]
    rfl
  · have h1 : reconcileUpsert r now o1 =
        (setStatus now o1 "True" "Ready" "Succesfully generated config" (some cfg),
          false) := by
      simp only [reconcileUpsert, hE]
    rw [h1]
    have h2 : getKubeConfig r
        (setStatus now o1 "True" "Ready" "Succesfully generated config" (some cfg)) =
        some cfg := by
      rw [getKubeConfig_setStatus, hE]
    simp only [reconcileUpsert, h2]
    rfl

/-- A second Config request with the same GUTI in another namespace. -/
def cfgObjW2 : UdmObject := ⟨"test-guti", "other", [("state", "x")], none⟩

/-- C8 witness: the purity theorem applied to the working controller and two
objects with the same GUTI. -/
theorem getKubeConfig_pure_in_guti_witness :
    cfgObjW.name = cfgObjW2.name
  ∧ (getKubeConfig udmOkW cfgObjW = getKubeConfig udmOkW cfgObjW2
    ∧ (reconcileUpsert udmOkW "t0" (reconcileUpsert udmOkW "t0" cfgObjW).1).1.status =
        (reconcileUpsert udmOkW "t0" cfgObjW).1.status) :=
  ⟨rfl, getKubeConfig_pure_in_guti udmOkW "t0" cfgObjW cfgObjW2 rfl⟩

/-- C10: every reconcile, successful or failed, stamps the state label with
the same value, ConfigAvailable, and replaces the conditions with a list of
exactly one condition of type Ready; the label therefore never distinguishes
a failed credential generation from a successful one. -/
theorem reconcile_state_label_uniform (r : UdmController) (now : String)
    (obj : UdmObject) :
    getLabel (reconcileUpsert r now obj).1.labels "state" = some "ConfigAvailable"
  ∧ ∃ st, (reconcileUpsert r now obj).1.status = some st
      ∧ st.conditions.length = 1
      ∧ st.conditions.map (fun c => c.ctype) = ["Ready"] := by
  simp only [reconcileUpsert]
  cases getKubeConfig r obj <;>
    exact ⟨rfl, _, rfl, rfl, rfl⟩

end D5G
